import Mathlib

/-!
Shallow embedding of `telegram_bulk_checker.py` (identifier parsing,
entity classification, the invite / username resolution adapters, result
formatting and the batch driver), together with theorems checking the
natural-language specification against this embedding.

Remote collaborator calls are modelled by passing their outcome
(`Except Fault …`) explicitly; Python `None` becomes `Option.none`,
Python attribute access with a default (`getattr(x, "f", d)`) becomes
`Option.getD`, and Python string truthiness is modelled explicitly.
-/

set_option maxHeartbeats 1000000

/-- Characters accepted by the invite-code character class `[A-Za-z0-9_-]`. -/
def isInviteChar (c : Char) : Bool :=
  c.isAlphanum || c = '_' || c = '-'

/-- Characters accepted by the username character class `[A-Za-z0-9_]`. -/
def isWordChar (c : Char) : Bool :=
  c.isAlphanum || c = '_'

/-- Case-insensitive literal match (the pattern is given lower-case):
returns the rest of the input after the literal, or `none`. -/
def matchCI : List Char → List Char → Option (List Char)
  | [], cs => some cs
  | _, [] => none
  | p :: ps, c :: cs => if c.toLower = p then matchCI ps cs else none

/-- First-alternative-wins choice on `Option`, modelling regex alternation. -/
def orO (a b : Option String) : Option String :=
  match a with
  | some x => some x
  | none => b

/-- Greedy capture of `[A-Za-z0-9_-]{16,}`: the maximal run of invite
characters, succeeding only when it has at least 16 characters. -/
def capInvite (cs : List Char) : Option String :=
  let run := cs.takeWhile isInviteChar
  if 16 ≤ run.length then some (String.mk run) else none

/-- Greedy capture of `[A-Za-z0-9_]{5,32}`: up to 32 characters of the
maximal word-character run, succeeding only when at least 5 are available. -/
def capHandle (cs : List Char) : Option String :=
  let run := cs.takeWhile isWordChar
  if 5 ≤ run.length then some (String.mk (run.take 32)) else none

/-- Optional scheme `(?:https?://)?` before `tail`, with regex backtracking
order: `https://` first, then `http://`, then no scheme. -/
def schemeTry (tail : List Char → Option String) (cs : List Char) : Option String :=
  orO ((matchCI "https://".data cs).bind tail)
    (orO ((matchCI "http://".data cs).bind tail) (tail cs))

/-- The part of the invite pattern after the optional scheme:
`t\.me/(?:joinchat/|\+)([A-Za-z0-9_-]{16,})`. -/
def inviteTail (cs : List Char) : Option String :=
  match matchCI "t.me/".data cs with
  | none => none
  | some r1 =>
    orO ((matchCI "joinchat/".data r1).bind capInvite)
      ((matchCI "+".data r1).bind capInvite)

/-- One attempt of `INVITE_RE` at a fixed position: the `t.me` alternative
first, then the `tg://join?invite=` alternative. -/
def inviteAt (cs : List Char) : Option String :=
  orO (schemeTry inviteTail cs) ((matchCI "tg://join?invite=".data cs).bind capInvite)

/-- The part of the username pattern after the optional scheme:
`t\.me/([A-Za-z0-9_]{5,32})`. -/
def usernameTail (cs : List Char) : Option String :=
  (matchCI "t.me/".data cs).bind capHandle

/-- One attempt of `USERNAME_RE` at a fixed position: the `t.me` alternative
first, then the bare `@handle` alternative. -/
def usernameAt (cs : List Char) : Option String :=
  orO (schemeTry usernameTail cs) ((matchCI "@".data cs).bind capHandle)

/-- Unanchored leftmost search (`re.search`): try the attempt at every
position from the left, first success wins. -/
def reSearch (att : List Char → Option String) : List Char → Option String
  | [] => att []
  | c :: rest => orO (att (c :: rest)) (reSearch att rest)

/-- Python `str.strip()` (whitespace from both ends). -/
def pyStrip (cs : List Char) : List Char :=
  ((cs.dropWhile Char.isWhitespace).reverse.dropWhile Char.isWhitespace).reverse

/-- Python `str.lower()` on a Lean string (ASCII case mapping). -/
def pyLower (s : String) : String :=
  String.mk (s.data.map Char.toLower)

/-- Dispatch of `parse_input` on the already-stripped value: empty →
`unknown`, else search the invite pattern, else the username pattern,
else `unknown`. -/
def parseStripped (v : List Char) : String × Option String :=
  if v.isEmpty then ("unknown", none)
  else
    match reSearch inviteAt v with
    | some code => ("invite", some code)
    | none =>
      match reSearch usernameAt v with
      | some u => ("username", some u)
      | none => ("unknown", none)

/-- Embedding of `parse_input`: strip the raw value, then dispatch. -/
def parse_input (value : String) : String × Option String :=
  parseStripped (pyStrip value.data)

example : parse_input "https://t.me/joinchat/AAAAAAAAAAAAAAAAAA" =
    ("invite", some "AAAAAAAAAAAAAAAAAA") := by decide
example : parse_input "@telegram" = ("username", some "telegram") := by decide
example : parse_input "@abc" = ("unknown", none) := by decide
example : parse_input "  t.me/+abcdefgh12345678  " = ("invite", some "abcdefgh12345678") := by decide
example : parse_input "not a telegram link at all" = ("unknown", none) := by decide
example : parse_input "tg://join?invite=ABCDEFGHIJKLMNOP" = ("invite", some "ABCDEFGHIJKLMNOP") := by decide
example : parse_input "HTTP://T.ME/SomeChannel" = ("username", some "SomeChannel") := by decide
example : parse_input "" = ("unknown", none) := by decide

/-- Remote entity, the capability-tagged variant of Telethon's
`types.Channel` / `types.Chat` / `types.User`, plus an `other` shape for
anything unrecognized.  Fields that Python reads through `getattr` with a
default are `Option`s. -/
inductive Entity where
  | channel (megagroup : Bool) (username : Option String) (verified : Option Bool)
      (title : Option String)
  | chat (verified : Option Bool) (title : Option String)
  | user (username : Option String) (verified : Option Bool)
  | other
deriving DecidableEq

/-- Python truthiness of an optional string: `None` and `""` are falsy. -/
def optTruthy : Option String → Bool
  | none => false
  | some s => !(s = "")

/-- Embedding of `getattr(entity, "username", default)`: `chat` and `other`
have no `username` attribute, so the default is returned for them. -/
def getUsernameAttr (e : Entity) (default : Option String) : Option String :=
  match e with
  | .channel _ u _ _ => u
  | .chat _ _ => default
  | .user u _ => u
  | .other => default

/-- Embedding of `getattr(entity, "title", None)`: only chat-like entities
carry a title. -/
def getTitleAttr (e : Entity) : Option String :=
  match e with
  | .channel _ _ _ t => t
  | .chat _ t => t
  | .user _ _ => none
  | .other => none

/-- Embedding of `classify_chat`. -/
def classify_chat : Entity → String × String × Option Bool
  | .channel mg u v _ =>
    (if mg then "supergroup" else "channel",
     if optTruthy u then "public" else "private",
     some (v.getD false))
  | .chat v _ => ("group", "private", some (v.getD false))
  | .user u v =>
    ("user", if optTruthy u then "public" else "private", some (v.getD false))
  | .other => ("unknown", "unknown", none)

/-- Kind of a remote fault: the two username faults the code catches by
class, and everything else identified by its Python class name. -/
inductive FaultKind where
  | usernameInvalid
  | usernameNotOccupied
  | otherFault (name : String)
deriving DecidableEq

/-- A raised remote fault: `kind` plays the role of the exception class,
`message` of `str(e)`. -/
structure Fault where
  kind : FaultKind
  message : String
deriving DecidableEq

/-- Python `type(e).__name__` for a fault. -/
def faultName : FaultKind → String
  | .usernameInvalid => "UsernameInvalidError"
  | .usernameNotOccupied => "UsernameNotOccupiedError"
  | .otherFault n => n

/-- The `types.ChatInvite` preview response shape (variant A);
`request_needed`, `participants_count` and `verified` are optional
attributes read through `getattr` / flag access. -/
structure ChatInvitePreview where
  request_needed : Option Bool
  title : String
  participants_count : Option Int
  verified : Option Bool
  channel : Bool
  megagroup : Bool
deriving DecidableEq

/-- Successful response shapes of `CheckChatInviteRequest`:
`ChatInvite` (preview), `ChatInviteAlready` (embedded entity), or any
other shape (e.g. `ChatInvitePeek`) that matches neither `isinstance`. -/
inductive InviteResp where
  | chatInvite (preview : ChatInvitePreview)
  | chatInviteAlready (chat : Entity)
  | chatInvitePeek
deriving DecidableEq

/-- The canonical result record (`CheckResult` dataclass). -/
structure CheckResult where
  input_value : String
  status : String
  kind : String
  visibility : String
  verified : Option Bool
  requires_approval : Option Bool
  member_count : Option Int
  title : Option String
  username : Option String
  extra : Option String
deriving DecidableEq

/-- Embedding of `check_invite`; the collaborator call's outcome is passed
in as `outcome`. -/
def check_invite (outcome : Except Fault InviteResp) (code : String) : CheckResult :=
  match outcome with
  | .error e =>
    { input_value := code
      status := "invalid: " ++ faultName e.kind
      kind := "unknown", visibility := "unknown"
      verified := none, requires_approval := none, member_count := none
      title := none, username := none, extra := some e.message }
  | .ok res =>
    match res with
    | .chatInvite inv =>
      { input_value := code
        status := "valid"
        kind :=
          if inv.channel && inv.megagroup then "supergroup"
          else if inv.channel then "channel" else "group"
        visibility := "private"
        verified := some (inv.verified.getD false)
        requires_approval := some (inv.request_needed.getD false)
        member_count := inv.participants_count
        title := some inv.title
        username := none, extra := none }
    | .chatInviteAlready ent =>
      { input_value := code
        status := "valid"
        kind := (classify_chat ent).1
        visibility := (classify_chat ent).2.1
        verified := (classify_chat ent).2.2
        requires_approval := none
        member_count := none
        title := none
        username := getUsernameAttr ent none
        extra := none }
    | .chatInvitePeek =>
      { input_value := code
        status := "valid"
        kind := "unknown", visibility := "private"
        verified := none, requires_approval := none, member_count := none
        title := none, username := none, extra := none }

/-- Parallel entity lists of a `ResolveUsernameRequest` response. -/
structure ResolvedPeer where
  chats : List Entity
  users : List Entity
deriving DecidableEq

/-- The `full_chat` payload of a `GetFullChannelRequest` response. -/
structure FullChat where
  participants_count : Option Int
  requests_pending : Option Int
deriving DecidableEq

/-- A `GetFullChannelRequest` response; `full_chat` may be absent. -/
structure FullResp where
  full_chat : Option FullChat
deriving DecidableEq

/-- Entity selection of `check_username`: first chat-like entity, else
first user-like entity, else none. -/
def selectEntity (r : ResolvedPeer) : Option Entity :=
  match r.chats with
  | c :: _ => some c
  | [] =>
    match r.users with
    | u :: _ => some u
    | [] => none

/-- Is the entity a `types.Channel`? -/
def isChannelEnt : Entity → Bool
  | .channel _ _ _ _ => true
  | _ => false

/-- The two exception handlers of `check_username`: the
`(UsernameInvalidError, UsernameNotOccupiedError)` clause (no `extra`),
and the catch-all clause (`extra` carries `str(e)`). -/
def usernameFaultResult (u : String) (e : Fault) : CheckResult :=
  match e.kind with
  | .usernameInvalid =>
    { input_value := u, status := "invalid_username: " ++ faultName e.kind
      kind := "unknown", visibility := "unknown"
      verified := none, requires_approval := none, member_count := none
      title := none, username := none, extra := none }
  | .usernameNotOccupied =>
    { input_value := u, status := "invalid_username: " ++ faultName e.kind
      kind := "unknown", visibility := "unknown"
      verified := none, requires_approval := none, member_count := none
      title := none, username := none, extra := none }
  | .otherFault _ =>
    { input_value := u, status := "error: " ++ faultName e.kind
      kind := "unknown", visibility := "unknown"
      verified := none, requires_approval := none, member_count := none
      title := none, username := none, extra := some e.message }

/-- The best-effort full-channel lookup of `check_username`: any fault or
missing `full_chat` degrades both fields to absent; `requires_approval` is
`true` only when `requests_pending` is present and positive, else absent. -/
def fullChannelFields (fullOutcome : Except Fault FullResp) : Option Int × Option Bool :=
  match fullOutcome with
  | .error _ => (none, none)
  | .ok fr =>
    match fr.full_chat with
    | none => (none, none)
    | some fc =>
      (fc.participants_count,
       match fc.requests_pending with
       | some n => if 0 < n then some true else none
       | none => none)

/-- Embedding of `check_username`; `outcome` is the resolve call's result
and `fullOutcome` the secondary full-channel call's result (consulted only
when the selected entity is a channel). -/
def check_username (outcome : Except Fault ResolvedPeer)
    (fullOutcome : Except Fault FullResp) (username : String) : CheckResult :=
  match outcome with
  | .error e => usernameFaultResult username e
  | .ok resolved =>
    match selectEntity resolved with
    | none => usernameFaultResult username ⟨.usernameNotOccupied, ""⟩
    | some entity =>
      let fields :=
        if isChannelEnt entity then fullChannelFields fullOutcome else (none, none)
      { input_value := username
        status := "resolved"
        kind := (classify_chat entity).1
        visibility := (classify_chat entity).2.1
        verified := (classify_chat entity).2.2
        requires_approval := fields.2
        member_count := fields.1
        title := getTitleAttr entity
        username := getUsernameAttr entity (some username)
        extra := none }

/-- The ordered substring-to-reason table of `_english_reason`. -/
def reasonMapping : List (String × String) :=
  [("invitehashexpired", "invite expired"),
   ("invitehashinvalid", "invalid invite"),
   ("invitehashempty", "invalid invite"),
   ("usernamenotoccupied", "username not found"),
   ("usernameinvalid", "invalid username"),
   ("channelprivate", "private chat"),
   ("chatadminrequired", "admin rights required"),
   ("floodwait", "rate limit, try later"),
   ("authkeypermanentlyinvalid", "invalid session, sign in again")]

/-- Python substring containment (`needle in haystack`). -/
def containsSub : List Char → List Char → Bool
  | n, [] => n.isEmpty
  | n, h :: t => List.isPrefixOf n (h :: t) || containsSub n t

/-- The scanning loop of `_english_reason`: first matching needle wins,
no match yields `"error"`. -/
def scanReason : List (String × String) → List Char → String
  | [], _ => "error"
  | (needle, reason) :: rest, text =>
    if containsSub needle.data text then reason else scanReason rest text

/-- Embedding of `_english_reason`. -/
def english_reason (status : String) (extra : Option String) : String :=
  scanReason reasonMapping (pyLower (status ++ " " ++ extra.getD "")).data

/-- The collaborator interface seen by the batch driver: the outcome of
each remote call, keyed by the payload it is called with. -/
structure Oracle where
  invite : String → Except Fault InviteResp
  resolve : String → Except Fault ResolvedPeer
  fullChannel : String → Except Fault FullResp

/-- The driver's synthesized result for an unrecognized input. -/
def unrecognizedResult (value : String) : CheckResult :=
  { input_value := value, status := "unrecognized"
    kind := "unknown", visibility := "unknown"
    verified := none, requires_approval := none, member_count := none
    title := none, username := none, extra := none }

/-- One iteration of the driver loop: parse, dispatch to the matching
adapter (or synthesize `unrecognized`), then overwrite `input_value` with
the original raw string. -/
def runItem (o : Oracle) (value : String) : CheckResult :=
  let parsed := parse_input value
  match parsed.2 with
  | some d =>
    if parsed.1 = "invite" ∧ d ≠ "" then
      { check_invite (o.invite d) d with input_value := value }
    else if parsed.1 = "username" ∧ d ≠ "" then
      { check_username (o.resolve d) (o.fullChannel d) d with input_value := value }
    else unrecognizedResult value
  | none => unrecognizedResult value

/-- Driver loop state: the append-only results list and the running
`processed` and `errors` counters. -/
structure BatchState where
  results : List CheckResult
  processed : Nat
  errors : Nat
deriving DecidableEq

/-- The batch driver loop over the extracted input values.  Each item
appends exactly one result and bumps `processed`; the per-item
`except` branch is unreachable because `runItem` is total, so `errors`
is never incremented. -/
def runBatch (o : Oracle) (values : List String) : BatchState :=
  values.foldl
    (fun st v =>
      { st with
        results := st.results ++ [runItem o v]
        processed := st.processed + 1 })
    ⟨[], 0, 0⟩

/-- Is the status counted as `ok` by the summary? -/
def isOkStatus (s : String) : Bool := s = "valid" || s = "resolved"

/-- Summary `ok` count. -/
def summaryOk (rs : List CheckResult) : Nat :=
  (rs.filter (fun r => isOkStatus r.status)).length

/-- Summary `unknown` count. -/
def summaryUnknown (rs : List CheckResult) : Nat :=
  (rs.filter (fun r => r.status = "unrecognized")).length

/-- Summary `invalid` count: `processed - ok - unknown`. -/
def summaryInvalid (st : BatchState) : Nat :=
  st.processed - summaryOk st.results - summaryUnknown st.results

/-- Python `str.strip()` on a Lean string. -/
def pyStripStr (s : String) : String :=
  String.mk (pyStrip s.data)

/-- The `input`-column extraction loop (`csv.DictReader` path): for each
body row take the cell in column `idx` (missing cells read as `""`),
strip it, and keep it when non-empty. -/
def inputColValues (idx : Nat) (body : List (List String)) : List String :=
  body.foldl
    (fun acc row =>
      let value := pyStripStr (row.getD idx "")
      if value ≠ "" then acc ++ [value] else acc)
    []

/-- The fallback first-column extraction loop (`csv.reader` path, after
`f.seek(0)`): over every row of the file, skip empty rows, strip the
first cell, and keep it when non-empty and not case-insensitively equal
to `"input"`. -/
def firstColValues (rows : List (List String)) : List String :=
  rows.foldl
    (fun acc row =>
      match row with
      | [] => acc
      | c :: _ =>
        let value := pyStripStr c
        if value ≠ "" ∧ pyLower value ≠ "input" then acc ++ [value] else acc)
    []

/-- Embedding of the input-file reading section of `run`: the file is a
list of rows of cells; the first row is the `DictReader` header.  When a
column is named exactly `"input"` that column is used, else the
first-column fallback runs over all rows. -/
def readValues (rows : List (List String)) : List String :=
  match rows with
  | [] => []
  | header :: body =>
    if "input" ∈ header then
      inputColValues (List.findIdx (fun c => c = "input") header) body
    else firstColValues (header :: body)

/-- Declarative per-row extraction of the fallback first-column path:
what the loop in `firstColValues` keeps of one row. -/
def firstColCell : List String → Option String
  | [] => none
  | c :: _ =>
    let v := pyStripStr c
    if v ≠ "" ∧ pyLower v ≠ "input" then some v else none

/-- Declarative per-row extraction of the `input`-column path. -/
def inputColCell (idx : Nat) (row : List String) : Option String :=
  let v := pyStripStr (row.getD idx "")
  if v ≠ "" then some v else none

example : english_reason "invalid: InviteHashExpiredError" (some "The invite hash has expired") = "invite expired" := by decide
example : english_reason "error: RPCError" (some "something odd") = "error" := by decide
example : readValues [["Url"], ["Input"]] = ["Url"] := by decide
example : readValues [["name", "input"], ["x", " @telegram "], ["y", ""]] = ["@telegram"] := by decide
example : readValues [["@first_one"], ["input"], ["@second_one"]] = ["@first_one", "@second_one"] := by decide

/-! Helper lemmas shared by the claim theorems. -/

theorem orO_eq_some (a b : Option String) (h : String) (hh : orO a b = some h) :
    a = some h ∨ b = some h := by
  cases a with
  | some x => exact Or.inl hh
  | none => exact Or.inr hh

theorem schemeTry_eq_some (tail : List Char → Option String) (cs : List Char) (h : String)
    (hs : schemeTry tail cs = some h) : ∃ r, tail r = some h := by
  unfold schemeTry at hs
  rcases orO_eq_some _ _ _ hs with h1 | h2
  · rcases Option.bind_eq_some.mp h1 with ⟨r, _, hr⟩
    exact ⟨r, hr⟩
  · rcases orO_eq_some _ _ _ h2 with h3 | h4
    · rcases Option.bind_eq_some.mp h3 with ⟨r, _, hr⟩
      exact ⟨r, hr⟩
    · exact ⟨cs, h4⟩

theorem usernameAt_eq_some (cs : List Char) (h : String) (hu : usernameAt cs = some h) :
    ∃ r, capHandle r = some h := by
  unfold usernameAt at hu
  rcases orO_eq_some _ _ _ hu with h1 | h2
  · rcases schemeTry_eq_some _ _ _ h1 with ⟨r, hr⟩
    unfold usernameTail at hr
    rcases Option.bind_eq_some.mp hr with ⟨r2, _, hr2⟩
    exact ⟨r2, hr2⟩
  · rcases Option.bind_eq_some.mp h2 with ⟨r, _, hr⟩
    exact ⟨r, hr⟩

theorem reSearch_eq_some (att : List Char → Option String) (cs : List Char) (h : String)
    (hs : reSearch att cs = some h) : ∃ r, att r = some h := by
  induction cs with
  | nil => exact ⟨[], hs⟩
  | cons c rest ih =>
    unfold reSearch at hs
    rcases orO_eq_some _ _ _ hs with h1 | h2
    · exact ⟨c :: rest, h1⟩
    · exact ih h2

theorem capHandle_spec (cs : List Char) (h : String) (hc : capHandle cs = some h) :
    5 ≤ h.length ∧ h.length ≤ 32 ∧ h.data.all isWordChar = true := by
  unfold capHandle at hc
  by_cases hlen : 5 ≤ (cs.takeWhile isWordChar).length
  · rw [if_pos hlen] at hc
    have hh : h = String.mk ((cs.takeWhile isWordChar).take 32) := (Option.some.inj hc).symm
    subst hh
    refine ⟨?_, ?_, ?_⟩
    · show 5 ≤ ((cs.takeWhile isWordChar).take 32).length
      rw [List.length_take]
      exact Nat.le_min.mpr ⟨by norm_num, hlen⟩
    · show ((cs.takeWhile isWordChar).take 32).length ≤ 32
      rw [List.length_take]
      exact Nat.min_le_left _ _
    · rw [List.all_eq_true]
      intro c hcMem
      exact List.mem_takeWhile_imp (List.take_subset _ _ hcMem)
  · rw [if_neg hlen] at hc
    exact absurd hc (by simp)

theorem runBatch_foldl (o : Oracle) (values : List String) (st : BatchState) :
    values.foldl
      (fun st v =>
        { st with
          results := st.results ++ [runItem o v]
          processed := st.processed + 1 })
      st
    = ⟨st.results ++ values.map (runItem o), st.processed + values.length, st.errors⟩ := by
  induction values generalizing st with
  | nil => simp
  | cons v vs ih =>
    rw [List.foldl_cons, ih]
    simp [Nat.add_comm, Nat.add_assoc, Nat.add_left_comm]

theorem runBatch_eq (o : Oracle) (values : List String) :
    runBatch o values = ⟨values.map (runItem o), values.length, 0⟩ := by
  unfold runBatch
  rw [runBatch_foldl]
  simp

theorem ok_unknown_le_length (rs : List CheckResult) :
    summaryOk rs + summaryUnknown rs ≤ rs.length := by
  induction rs with
  | nil => simp [summaryOk, summaryUnknown]
  | cons r rs ih =>
    unfold summaryOk summaryUnknown at ih ⊢
    by_cases h1 : isOkStatus r.status = true <;> by_cases h2 : r.status = "unrecognized"
    · exfalso
      rw [h2] at h1
      exact absurd h1 (by decide)
    · simp only [List.filter_cons, h1, h2, if_true, decide_False, Bool.false_eq_true,
        if_false, List.length_cons]
      omega
    · simp only [List.filter_cons, h1, h2, decide_True, if_true, Bool.false_eq_true,
        if_false, List.length_cons,
        show isOkStatus "unrecognized" = false from rfl]
      omega
    · simp only [List.filter_cons, h1, h2, decide_False, Bool.false_eq_true, if_false,
        List.length_cons]
      omega

theorem scanReason_eq_find (m : List (String × String)) (text : List Char) :
    scanReason m text =
      ((m.find? (fun p => containsSub p.1.data text)).map Prod.snd).getD "error" := by
  induction m with
  | nil => rfl
  | cons p rest ih =>
    obtain ⟨needle, reason⟩ := p
    by_cases h : containsSub needle.data text
    · simp [scanReason, List.find?_cons, h]
    · simp [scanReason, List.find?_cons, h, ih]

theorem fullChannelFields_snd (fu : Except Fault FullResp) :
    (fullChannelFields fu).2 = none ∨ (fullChannelFields fu).2 = some true := by
  cases fu with
  | error e => exact Or.inl rfl
  | ok fr =>
    cases hfc : fr.full_chat with
    | none => left; simp [fullChannelFields, hfc]
    | some fc =>
      cases hr : fc.requests_pending with
      | none => left; simp [fullChannelFields, hfc, hr]
      | some n =>
        by_cases hn : 0 < n
        · right; simp [fullChannelFields, hfc, hr, hn]
        · left; simp [fullChannelFields, hfc, hr, hn]

theorem parseStripped_username (v : List Char) (h : String)
    (hp : parseStripped v = ("username", some h)) :
    reSearch usernameAt v = some h := by
  unfold parseStripped at hp
  by_cases he : v.isEmpty
  · rw [if_pos he] at hp
    exact absurd hp (by simp)
  · rw [if_neg he] at hp
    cases hi : reSearch inviteAt v with
    | some code =>
      rw [hi] at hp
      exact absurd hp (by simp)
    | none =>
      rw [hi] at hp
      cases hu : reSearch usernameAt v with
      | some u =>
        rw [hu] at hp
        have huh : u = h := by simpa using congrArg Prod.snd hp
        exact congrArg some huh
      | none =>
        rw [hu] at hp
        exact absurd hp (by simp)

theorem firstCol_foldl (rows : List (List String)) (acc : List String) :
    rows.foldl
      (fun acc row =>
        match row with
        | [] => acc
        | c :: _ =>
          let value := pyStripStr c
          if value ≠ "" ∧ pyLower value ≠ "input" then acc ++ [value] else acc)
      acc
    = acc ++ rows.filterMap firstColCell := by
  induction rows generalizing acc with
  | nil => simp
  | cons row rest ih =>
    rw [List.foldl_cons, ih]
    cases row with
    | nil => simp [firstColCell, List.filterMap_cons]
    | cons c cells =>
      by_cases hc : pyStripStr c ≠ "" ∧ pyLower (pyStripStr c) ≠ "input"
      · simp only [firstColCell, List.filterMap_cons, hc, if_pos, and_self,
          List.append_assoc, List.singleton_append]
        simp [hc]
      · simp only [firstColCell, List.filterMap_cons]
        simp [hc]

theorem inputCol_foldl (idx : Nat) (body : List (List String)) (acc : List String) :
    body.foldl
      (fun acc row =>
        let value := pyStripStr (row.getD idx "")
        if value ≠ "" then acc ++ [value] else acc)
      acc
    = acc ++ body.filterMap (inputColCell idx) := by
  induction body generalizing acc with
  | nil => simp
  | cons row rest ih =>
    rw [List.foldl_cons, ih]
    by_cases hc : pyStripStr (row[idx]?.getD "") = ""
    · simp [inputColCell, List.filterMap_cons, hc]
    · simp [inputColCell, List.filterMap_cons, hc]

theorem firstColValues_eq (rows : List (List String)) :
    firstColValues rows = rows.filterMap firstColCell := by
  unfold firstColValues
  rw [firstCol_foldl]
  simp

theorem inputColValues_eq (idx : Nat) (body : List (List String)) :
    inputColValues idx body = body.filterMap (inputColCell idx) := by
  unfold inputColValues
  rw [inputCol_foldl]
  simp

/-! Claim theorems. -/

/-- C1 counterexample: in `check_invite`, an invite preview whose
`request_needed` flag is absent yields `requires_approval = some false`,
an explicit false — not the absent value the claim requires. -/
theorem invite_request_flag_default_cex :
    (check_invite (.ok (.chatInvite ⟨none, "T", none, none, true, true⟩)) "c").requires_approval
      = some false
    ∧ (check_invite (.ok (.chatInvite ⟨none, "T", none, none, true, true⟩)) "c").requires_approval
      ≠ none := ⟨by decide, by decide⟩

/-- C1 (amended): in the invite adapter, `requires_approval` on the
invite-preview variant is the boolean value of the `request_needed` flag
with absence defaulting to explicit `false`; in the username adapter,
`requires_approval` is never explicitly `false`, and after a successful
full-channel lookup it is `true` iff the pending-join-request counter is
present and greater than zero (absent otherwise). -/
theorem requires_approval_tristate :
    (∀ (inv : ChatInvitePreview) (code : String),
        (check_invite (.ok (.chatInvite inv)) code).requires_approval
          = some (inv.request_needed.getD false))
    ∧ (∀ (ro : Except Fault ResolvedPeer) (fu : Except Fault FullResp) (u : String),
        (check_username ro fu u).requires_approval ≠ some false)
    ∧ (∀ (r : ResolvedPeer) (e : Entity) (fr : FullResp) (fc : FullChat) (u : String),
        selectEntity r = some e → isChannelEnt e = true → fr.full_chat = some fc →
          ((check_username (.ok r) (.ok fr) u).requires_approval = some true ↔
            ∃ n, fc.requests_pending = some n ∧ 0 < n)) := by
  refine ⟨fun inv code => rfl, ?_, ?_⟩
  · intro ro fu u
    cases ro with
    | error e =>
      obtain ⟨k, m⟩ := e
      cases k <;> simp [check_username, usernameFaultResult]
    | ok resolved =>
      cases hsel : selectEntity resolved with
      | none => simp [check_username, hsel, usernameFaultResult]
      | some entity =>
        simp only [check_username, hsel]
        by_cases hch : isChannelEnt entity = true
        · simp only [hch, if_true]
          rcases fullChannelFields_snd fu with h | h <;> simp [h]
        · simp [hch]
  · intro r e fr fc u hsel hch hfc
    simp only [check_username, hsel, hch, if_true, fullChannelFields, hfc]
    cases hr : fc.requests_pending with
    | none => simp
    | some n =>
      by_cases hn : 0 < n
      · simp [hn]
      · simp [hn]

/-- C1 witness: concrete instances of the amended claim; the invite
preview with an absent flag gives the getD default, and a channel with
two pending join requests gives `some true`. -/
theorem requires_approval_tristate_witness :
    (check_invite (.ok (.chatInvite ⟨none, "T", none, none, true, true⟩)) "c").requires_approval
      = some ((none : Option Bool).getD false)
    ∧ (check_username (.ok ⟨[.channel true none none none], []⟩)
          (.ok ⟨some ⟨some 5, some 2⟩⟩) "abcde").requires_approval = some true := by
  constructor
  · exact requires_approval_tristate.1 ⟨none, "T", none, none, true, true⟩ "c"
  · exact (requires_approval_tristate.2.2 ⟨[.channel true none none none], []⟩
        (.channel true none none none) ⟨some ⟨some 5, some 2⟩⟩ ⟨some 5, some 2⟩ "abcde"
        rfl rfl rfl).mpr ⟨2, rfl, by norm_num⟩

/-- C2 counterexample: on the unexpected-successful-shape path of
`check_invite`, `visibility` is the initialized `"private"`, not
`"unknown"` as the claim states. -/
theorem invite_other_shape_cex :
    (check_invite (.ok .chatInvitePeek) "c").visibility = "private"
    ∧ ¬ (check_invite (.ok .chatInvitePeek) "c").visibility = "unknown" :=
  ⟨by decide, by decide⟩

/-- C2 (amended): for a successful invite-check response that is neither
the invite-preview variant nor the already-member variant, `check_invite`
returns status `valid`, kind `unknown`, visibility `private` (the
adapter's initialized default), and every optional field absent. -/
theorem invite_other_shape_result (code : String) :
    check_invite (.ok .chatInvitePeek) code =
      { input_value := code, status := "valid", kind := "unknown", visibility := "private",
        verified := none, requires_approval := none, member_count := none,
        title := none, username := none, extra := none } := rfl

/-- C3: `classify_chat` is total with the claimed mapping — channels
split on `megagroup` and username presence with `verified` defaulting to
false, groups are always private, users split on username presence, and
any other shape maps to `(unknown, unknown, absent)`. -/
theorem classify_chat_total :
    (∀ mg u v t, classify_chat (.channel mg u v t) =
        (if mg then "supergroup" else "channel",
         if optTruthy u then "public" else "private", some (v.getD false)))
    ∧ (∀ v t, classify_chat (.chat v t) = ("group", "private", some (v.getD false)))
    ∧ (∀ u v, classify_chat (.user u v) =
        ("user", if optTruthy u then "public" else "private", some (v.getD false)))
    ∧ classify_chat .other = ("unknown", "unknown", none) :=
  ⟨fun _ _ _ _ => rfl, fun _ _ => rfl, fun _ _ => rfl, rfl⟩

/-- C8: `english_reason` lower-cases `status ++ " " ++ extra` and returns
the reason of the first table entry whose needle occurs as a substring,
with `"error"` when no entry matches; checked on a matching and a
non-matching concrete input. -/
theorem english_reason_table (status : String) (extra : Option String) :
    english_reason status extra =
      ((reasonMapping.find? (fun p =>
          containsSub p.1.data (pyLower (status ++ " " ++ extra.getD "")).data)).map
        Prod.snd).getD "error"
    ∧ english_reason "invalid: InviteHashExpiredError" (some "The invite hash has expired")
        = "invite expired"
    ∧ english_reason "error: SomethingElse" (some "no known needle") = "error" :=
  ⟨scanReason_eq_find _ _, by decide, by decide⟩

/-- C4: for every batch run, `ok + unknown + invalid = processed` (with
`ok` counting `valid`/`resolved`, `unknown` counting `unrecognized`, and
`invalid` the remainder), and the `errors` counter stays zero — driver
errors are disjoint from the status tally, so no item counted `invalid`
is ever also counted in `errors`. -/
theorem batch_summary_invariant (o : Oracle) (values : List String) :
    summaryOk (runBatch o values).results + summaryUnknown (runBatch o values).results
        + summaryInvalid (runBatch o values)
      = (runBatch o values).processed
    ∧ (runBatch o values).errors = 0 := by
  have he := runBatch_eq o values
  have hlen : (runBatch o values).processed = (runBatch o values).results.length := by
    rw [he]
    simp
  have hle := ok_unknown_le_length (runBatch o values).results
  refine ⟨?_, by rw [he]⟩
  unfold summaryInvalid
  omega

/-- C5: `check_username` selects the first chat-like entity, else the
first user-like entity, else behaves as a raised not-found fault; a
username-invalid or not-occupied fault yields the
`"invalid_username: " ++ kind` record with all fields unknown/absent and
no `extra`, and any other fault yields `"error: " ++ kind` with `extra`
carrying the fault message. -/
theorem check_username_contract (f : Fault) (fu : Except Fault FullResp) (u : String)
    (r : ResolvedPeer) (e e' : Entity) (cs us : List Entity) :
    (r.chats = e :: cs →
      (check_username (.ok r) fu u).status = "resolved"
      ∧ (check_username (.ok r) fu u).kind = (classify_chat e).1
      ∧ (check_username (.ok r) fu u).visibility = (classify_chat e).2.1)
    ∧ (r.chats = [] → r.users = e' :: us →
      (check_username (.ok r) fu u).status = "resolved"
      ∧ (check_username (.ok r) fu u).kind = (classify_chat e').1
      ∧ (check_username (.ok r) fu u).visibility = (classify_chat e').2.1)
    ∧ (r.chats = [] → r.users = [] →
      check_username (.ok r) fu u =
        { input_value := u, status := "invalid_username: UsernameNotOccupiedError",
          kind := "unknown", visibility := "unknown", verified := none,
          requires_approval := none, member_count := none, title := none,
          username := none, extra := none })
    ∧ ((f.kind = .usernameInvalid ∨ f.kind = .usernameNotOccupied) →
      check_username (.error f) fu u =
        { input_value := u, status := "invalid_username: " ++ faultName f.kind,
          kind := "unknown", visibility := "unknown", verified := none,
          requires_approval := none, member_count := none, title := none,
          username := none, extra := none })
    ∧ (f.kind ≠ .usernameInvalid ∧ f.kind ≠ .usernameNotOccupied →
      check_username (.error f) fu u =
        { input_value := u, status := "error: " ++ faultName f.kind,
          kind := "unknown", visibility := "unknown", verified := none,
          requires_approval := none, member_count := none, title := none,
          username := none, extra := some f.message }) := by
  refine ⟨?_, ?_, ?_, ?_, ?_⟩
  · intro hc
    have hsel : selectEntity r = some e := by
      unfold selectEntity
      rw [hc]
    simp [check_username, hsel]
  · intro hc hus
    have hsel : selectEntity r = some e' := by
      unfold selectEntity
      rw [hc, hus]
    simp [check_username, hsel]
  · intro hc hus
    have hsel : selectEntity r = none := by
      unfold selectEntity
      rw [hc, hus]
    simp only [check_username, hsel, usernameFaultResult,
      show "invalid_username: " ++ faultName FaultKind.usernameNotOccupied
          = "invalid_username: UsernameNotOccupiedError" from by decide]
  · intro hk
    obtain ⟨k, m⟩ := f
    cases k with
    | usernameInvalid => rfl
    | usernameNotOccupied => rfl
    | otherFault n =>
      rcases hk with hk | hk <;> exact absurd hk (by simp)
  · intro hk
    obtain ⟨k, m⟩ := f
    cases k with
    | usernameInvalid => exact absurd rfl hk.1
    | usernameNotOccupied => exact absurd rfl hk.2
    | otherFault n => rfl

/-- C5 witness: the contract evaluated at concrete responses — a found
chat entity resolves, empty lists behave as not-found, a username fault
maps to `invalid_username`, and a flood-wait fault maps to `error`. -/
theorem check_username_contract_witness :
    (check_username (.ok ⟨[Entity.other], [Entity.user none none]⟩)
        (.error ⟨.otherFault "E", ""⟩) "abcde").status = "resolved"
    ∧ (check_username (.ok ⟨[], []⟩) (.error ⟨.otherFault "E", ""⟩) "abcde").status
        = "invalid_username: UsernameNotOccupiedError"
    ∧ (check_username (.error ⟨.usernameInvalid, "msg"⟩)
        (.error ⟨.otherFault "E", ""⟩) "abcde").status = "invalid_username: UsernameInvalidError"
    ∧ (check_username (.error ⟨.otherFault "FloodWaitError", "wait"⟩)
        (.error ⟨.otherFault "E", ""⟩) "abcde").status = "error: FloodWaitError" := by
  refine ⟨?_, ?_, ?_, ?_⟩
  · exact ((check_username_contract ⟨.usernameInvalid, ""⟩ (.error ⟨.otherFault "E", ""⟩)
      "abcde" ⟨[Entity.other], [Entity.user none none]⟩ Entity.other (Entity.user none none)
      [] []).1 rfl).1
  · have h := (check_username_contract ⟨.usernameInvalid, ""⟩ (.error ⟨.otherFault "E", ""⟩)
      "abcde" ⟨[], []⟩ Entity.other Entity.other [] []).2.2.1 rfl rfl
    rw [h]
  · have h := (check_username_contract ⟨.usernameInvalid, "msg"⟩ (.error ⟨.otherFault "E", ""⟩)
      "abcde" ⟨[], []⟩ Entity.other Entity.other [] []).2.2.2.1 (Or.inl rfl)
    rw [h]
    decide
  · have h := (check_username_contract ⟨.otherFault "FloodWaitError", "wait"⟩
      (.error ⟨.otherFault "E", ""⟩) "abcde" ⟨[], []⟩ Entity.other Entity.other [] []).2.2.2.2
      ⟨by simp, by simp⟩
    rw [h]
    decide

/-- C10: both adapters are total at the call boundary — every collaborator
fault is converted into a status string (`"invalid: " ++ kind` for the
invite adapter, `"invalid_username: " ++ kind` or `"error: " ++ kind` for
the username adapter), so the batch driver's per-item error branch never
fires: `errors` is zero and every input yields exactly one result. -/
theorem adapters_never_propagate (o : Oracle) (values : List String) (f : Fault)
    (code u : String) (fu : Except Fault FullResp) :
    (runBatch o values).errors = 0
    ∧ (runBatch o values).results.length = values.length
    ∧ (check_invite (.error f) code).status = "invalid: " ++ faultName f.kind
    ∧ ((check_username (.error f) fu u).status = "invalid_username: " ++ faultName f.kind
        ∨ (check_username (.error f) fu u).status = "error: " ++ faultName f.kind) := by
  refine ⟨by rw [runBatch_eq], by rw [runBatch_eq]; simp, rfl, ?_⟩
  obtain ⟨k, m⟩ := f
  cases k with
  | usernameInvalid => exact Or.inl rfl
  | usernameNotOccupied => exact Or.inl rfl
  | otherFault n => exact Or.inr rfl

/-- C6: a raw string matched by both the invite pattern and the username
pattern parses as `kind = invite` with the invite pattern's captured
code, never as `username` — the invite search runs first. -/
theorem invite_over_username_priority (s code : String)
    (hinv : reSearch inviteAt (pyStrip s.data) = some code)
    (husr : reSearch usernameAt (pyStrip s.data) ≠ none) :
    parse_input s = ("invite", some code) := by
  unfold parse_input parseStripped
  have hne : (pyStrip s.data).isEmpty = false := by
    cases hl : pyStrip s.data with
    | nil =>
      rw [hl] at hinv
      exact Option.noConfusion hinv
    | cons a l => rfl
  simp only [hne, Bool.false_eq_true, if_false, hinv]

/-- C6 witness: a link matching both patterns (its `t.me/joinchat`
segment also matches the username pattern) parses as an invite. -/
theorem invite_over_username_priority_witness :
    parse_input "t.me/joinchat/abcdefghabcdefgh" = ("invite", some "abcdefghabcdefgh") :=
  invite_over_username_priority "t.me/joinchat/abcdefghabcdefgh" "abcdefghabcdefgh"
    (by decide) (by decide)

/-- C7: every handle parsed as a username has 5 to 32 characters, all in
`[A-Za-z0-9_]`; the 4-character input `"@abc"` parses as `unknown`, and
the batch driver turns it into the `unrecognized` result. -/
theorem username_handle_bounds :
    (∀ (s h : String), parse_input s = ("username", some h) →
        5 ≤ h.length ∧ h.length ≤ 32 ∧ h.data.all isWordChar = true)
    ∧ parse_input "@abc" = ("unknown", none)
    ∧ (∀ o : Oracle, runItem o "@abc" = unrecognizedResult "@abc") := by
  refine ⟨?_, by decide, ?_⟩
  · intro s h hp
    have h1 : reSearch usernameAt (pyStrip s.data) = some h :=
      parseStripped_username (pyStrip s.data) h hp
    obtain ⟨r, hr⟩ := reSearch_eq_some _ _ _ h1
    obtain ⟨r2, hr2⟩ := usernameAt_eq_some _ _ hr
    exact capHandle_spec _ _ hr2
  · intro o
    rfl

/-- C7 witness: the length and character-class bounds instantiated on the
concrete parse of `"@handle1"`. -/
theorem username_handle_bounds_witness :
    5 ≤ "handle1".length ∧ "handle1".length ≤ 32
    ∧ "handle1".data.all isWordChar = true :=
  username_handle_bounds.1 "@handle1" "handle1" (by decide)

/-- C9 counterexample: with no exact `input` header, the first-column
path drops the mid-file row `["Input"]` even though its cell is not the
exact (case-sensitive) string `"input"` and it is not a header row. -/
theorem input_rows_skip_cex :
    readValues [["Url"], ["Input"]] = ["Url"]
    ∧ readValues [["Url"], ["Input"]] ≠ ["Url", "Input"]
    ∧ ("Input" : String) ≠ "input" := ⟨by decide, by decide, by decide⟩

/-- C9 (amended): the column named exactly `input` is used if present in
the header; otherwise the first column of every row is used, and any row
— not only a header — whose first cell strips to the empty string or
lower-cases to `"input"` is dropped (the skip is case-insensitive). -/
theorem read_values_paths (header : List String) (body : List (List String)) :
    ("input" ∉ header →
      readValues (header :: body) = (header :: body).filterMap firstColCell)
    ∧ ("input" ∈ header →
      readValues (header :: body) =
        body.filterMap (inputColCell (List.findIdx (fun c => c = "input") header))) := by
  constructor
  · intro hn
    simp only [readValues]
    rw [if_neg hn, firstColValues_eq]
  · intro hm
    simp only [readValues]
    rw [if_pos hm, inputColValues_eq]

/-- C9 witness: both paths evaluated on concrete files — the fallback
path drops the case-insensitive `"Input"` row, the `input`-column path
strips and keeps the column cell. -/
theorem read_values_paths_witness :
    readValues [["Url"], ["Input"]] = [["Url"], ["Input"]].filterMap firstColCell
    ∧ readValues [["input"], [" @someuser "]] =
        [[" @someuser "]].filterMap
          (inputColCell (List.findIdx (fun c => c = "input") ["input"])) := by
  constructor
  · exact (read_values_paths ["Url"] [["Input"]]).1 (by decide)
  · exact (read_values_paths ["input"] [[" @someuser "]]).2 (by decide)

